import Mathlib

/-!
Verification of the error-classification layer and the webhook-event-filter
model of the `cdp-sdk-python` repository, as a shallow embedding in Lean 4.

The embedding follows `cdp/errors.py` (class `APIError`, its subclasses, the
`ERROR_CODE_TO_ERROR_CLASS` registry) and
`cdp/client/models/webhook_event_filter.py` (class `WebhookEventFilter`).
Python's `json.loads` is modelled by an executable recursive-descent parser
over the JSON grammar that `json.loads` accepts in its default (strict)
configuration.  Deviations of the model from CPython, none of which are
exercised by any theorem below, are marked by comments at the definitions.
-/

set_option maxHeartbeats 1000000

/-- A decoded JSON value, as produced by Python's `json.loads`.
Numbers keep their source lexeme: the numeric (float) value of a number is
never inspected by the code under verification, only its truthiness and its
Python type (int vs float), both of which are recoverable from the lexeme. -/
inductive JsonVal where
  | null
  | bool (b : Bool)
  | num (lexeme : String)
  | str (s : String)
  | arr (elems : List JsonVal)
  | obj (members : List (String × JsonVal))

/-- The left-brace character, kept out of literals. -/
def lbraceChar : Char := Char.ofNat 123

/-- The right-brace character, kept out of literals. -/
def rbraceChar : Char := Char.ofNat 125

/-- JSON whitespace as accepted by Python's `json.loads`. -/
def isJsonWs (c : Char) : Bool :=
  c = ' ' || c = Char.ofNat 9 || c = Char.ofNat 10 || c = Char.ofNat 13

/-- Drop leading JSON whitespace. -/
def skipWs : List Char → List Char
  | [] => []
  | c :: cs => if isJsonWs c then skipWs cs else c :: cs

/-- Value of a hexadecimal digit. -/
def hexDigitVal (c : Char) : Option Nat :=
  if '0' ≤ c ∧ c ≤ '9' then some (c.toNat - 48)
  else if 'a' ≤ c ∧ c ≤ 'f' then some (c.toNat - 97 + 10)
  else if 'A' ≤ c ∧ c ≤ 'F' then some (c.toNat - 65 + 10)
  else none

/-- Value of a four-hex-digit escape. -/
def hex4 (a b c d : Char) : Option Nat :=
  match hexDigitVal a, hexDigitVal b, hexDigitVal c, hexDigitVal d with
  | some x, some y, some z, some w => some (((x * 16 + y) * 16 + z) * 16 + w)
  | _, _, _, _ => none

/-- Prepend a character to the pending string content of a parse result. -/
def consCh (c : Char) (r : Option (List Char × List Char)) :
    Option (List Char × List Char) :=
  r.map (fun p => (c :: p.1, p.2))

/-- Parse the body of a JSON string literal (the opening quote already
consumed), returning the decoded content and the input after the closing
quote.  Escapes and the strict-mode rejection of raw control characters
follow Python's `json.loads`.  Deviation: Python decodes a lone surrogate
`\uD800`–`\uDFFF` escape to a lone-surrogate `str`, which a Lean `String`
cannot represent, so the model rejects it. -/
def parseStrBody : List Char → Option (List Char × List Char)
  | [] => none
  | c :: cs =>
    if c = '"' then some ([], cs)
    else if c = '\\' then
      match cs with
      | [] => none
      | e :: cs2 =>
        if e = '"' then consCh '"' (parseStrBody cs2)
        else if e = '\\' then consCh '\\' (parseStrBody cs2)
        else if e = '/' then consCh '/' (parseStrBody cs2)
        else if e = 'b' then consCh (Char.ofNat 8) (parseStrBody cs2)
        else if e = 'f' then consCh (Char.ofNat 12) (parseStrBody cs2)
        else if e = 'n' then consCh (Char.ofNat 10) (parseStrBody cs2)
        else if e = 'r' then consCh (Char.ofNat 13) (parseStrBody cs2)
        else if e = 't' then consCh (Char.ofNat 9) (parseStrBody cs2)
        else if e = 'u' then
          match cs2 with
          | a :: b :: c2 :: d :: cs3 =>
            match hex4 a b c2 d with
            | none => none
            | some n =>
              if 0xD800 ≤ n ∧ n ≤ 0xDBFF then
                match cs3 with
                | s1 :: s2 :: a2 :: b2 :: c3 :: d2 :: cs4 =>
                  if s1 = '\\' ∧ s2 = 'u' then
                    match hex4 a2 b2 c3 d2 with
                    | none => none
                    | some m =>
                      if 0xDC00 ≤ m ∧ m ≤ 0xDFFF then
                        consCh (Char.ofNat (0x10000 + (n - 0xD800) * 0x400 + (m - 0xDC00)))
                          (parseStrBody cs4)
                      else none
                  else none
                | _ => none
              else if 0xDC00 ≤ n ∧ n ≤ 0xDFFF then none
              else consCh (Char.ofNat n) (parseStrBody cs3)
          | _ => none
        else none
    else if c.toNat < 32 then none
    else consCh c (parseStrBody cs)

/-- Longest prefix of decimal digits, and the rest. -/
def splitDigits (cs : List Char) : List Char × List Char :=
  (cs.takeWhile (fun c => c.isDigit), cs.dropWhile (fun c => c.isDigit))

/-- Parse a JSON number, returning its lexeme and the rest of the input.
Grammar as in Python's `json` module: `-? (0 | [1-9][0-9]*) (\.[0-9]+)?
([eE][+-]?[0-9]+)?`. -/
def parseNum (cs : List Char) : Option (List Char × List Char) :=
  let (neg, cs1) : List Char × List Char :=
    match cs with
    | '-' :: t => (['-'], t)
    | _ => ([], cs)
  match cs1 with
  | [] => none
  | c :: _ =>
    if c.isDigit then
      let (ip, r1) : List Char × List Char :=
        match cs1 with
        | '0' :: t => (['0'], t)
        | _ => splitDigits cs1
      let (fp, r2) : List Char × List Char :=
        match r1 with
        | '.' :: t =>
          match splitDigits t with
          | ([], _) => ([], r1)
          | (ds, t2) => ('.' :: ds, t2)
        | _ => ([], r1)
      let (ep, r3) : List Char × List Char :=
        match r2 with
        | e :: t =>
          if e = 'e' ∨ e = 'E' then
            let (sgn, t1) : List Char × List Char :=
              match t with
              | s :: ts => if s = '+' ∨ s = '-' then ([s], ts) else ([], t)
              | [] => ([], t)
            match splitDigits t1 with
            | ([], _) => ([], r2)
            | (ds, t2) => (e :: (sgn ++ ds), t2)
          else ([], r2)
        | [] => ([], r2)
      some (neg ++ ip ++ fp ++ ep, r3)
    else none

mutual

/-- Parse one JSON value.  The fuel argument only bounds recursion through
containers; `json_loads` supplies more fuel than any input can consume. -/
def parseVal : Nat → List Char → Option (JsonVal × List Char)
  | 0, _ => none
  | _ + 1, [] => none
  | fuel + 1, c :: rest =>
    if c = '"' then
      match parseStrBody rest with
      | some (content, r) => some (JsonVal.str (String.mk content), r)
      | none => none
    else if c = lbraceChar then parseObjBody fuel (skipWs rest)
    else if c = '[' then parseArrBody fuel (skipWs rest)
    else if c = 't' then
      if List.isPrefixOf (String.toList ("rue")) rest then
        some (JsonVal.bool true, rest.drop 3)
      else none
    else if c = 'f' then
      if List.isPrefixOf (String.toList ("alse")) rest then
        some (JsonVal.bool false, rest.drop 4)
      else none
    else if c = 'n' then
      if List.isPrefixOf (String.toList ("ull")) rest then
        some (JsonVal.null, rest.drop 3)
      else none
    else if c = 'N' then
      if List.isPrefixOf (String.toList ("aN")) rest then
        some (JsonVal.num ("NaN"), rest.drop 2)
      else none
    else if c = 'I' then
      if List.isPrefixOf (String.toList ("nfinity")) rest then
        some (JsonVal.num ("Infinity"), rest.drop 7)
      else none
    else if c = '-' ∧ List.isPrefixOf (String.toList ("Infinity")) rest then
      some (JsonVal.num ("-Infinity"), rest.drop 8)
    else if c = '-' ∨ c.isDigit then
      match parseNum (c :: rest) with
      | some (lex, r) => some (JsonVal.num (String.mk lex), r)
      | none => none
    else none

/-- Parse the inside of a JSON object, whitespace after the opening brace
already skipped. -/
def parseObjBody : Nat → List Char → Option (JsonVal × List Char)
  | 0, _ => none
  | _ + 1, [] => none
  | fuel + 1, c :: rest =>
    if c = rbraceChar then some (JsonVal.obj [], rest)
    else
      match parseMembers fuel (c :: rest) with
      | some (ms, r) => some (JsonVal.obj ms, r)
      | none => none

/-- Parse one or more `"key": value` members followed by `,` or the closing
brace. -/
def parseMembers : Nat → List Char → Option (List (String × JsonVal) × List Char)
  | 0, _ => none
  | _ + 1, [] => none
  | fuel + 1, c :: rest =>
    if c = '"' then
      match parseStrBody rest with
      | some (key, r1) =>
        match skipWs r1 with
        | ':' :: r2 =>
          match parseVal fuel (skipWs r2) with
          | some (v, r3) =>
            match skipWs r3 with
            | c2 :: r4 =>
              if c2 = rbraceChar then some ([(String.mk key, v)], r4)
              else if c2 = ',' then
                match parseMembers fuel (skipWs r4) with
                | some (ms, r5) => some ((String.mk key, v) :: ms, r5)
                | none => none
              else none
            | [] => none
          | none => none
        | _ => none
      | none => none
    else none

/-- Parse the inside of a JSON array, whitespace after the opening bracket
already skipped. -/
def parseArrBody : Nat → List Char → Option (JsonVal × List Char)
  | 0, _ => none
  | _ + 1, [] => none
  | fuel + 1, c :: rest =>
    if c = ']' then some (JsonVal.arr [], rest)
    else
      match parseElems fuel (c :: rest) with
      | some (vs, r) => some (JsonVal.arr vs, r)
      | none => none

/-- Parse one or more array elements followed by `,` or the closing
bracket. -/
def parseElems : Nat → List Char → Option (List JsonVal × List Char)
  | 0, _ => none
  | fuel + 1, cs =>
    match parseVal fuel cs with
    | some (v, r1) =>
      match skipWs r1 with
      | c :: r2 =>
        if c = ']' then some ([v], r2)
        else if c = ',' then
          match parseElems fuel (skipWs r2) with
          | some (vs, r3) => some (v :: vs, r3)
          | none => none
        else none
      | [] => none
    | none => none

end

/-- Model of Python's `json.loads`: `none` models a raised
`json.JSONDecodeError`, `some v` a successful decode to `v`. -/
def json_loads (s : String) : Option JsonVal :=
  match parseVal (2 * s.toList.length + 2) (skipWs s.toList) with
  | some (v, rest) => if (skipWs rest).isEmpty then some v else none
  | none => none

/-- Python `dict.get` on the member list decoded from a JSON object: with
duplicate keys the later binding wins, as in `dict(pairs)`. -/
def jget (kvs : List (String × JsonVal)) (k : String) : Option JsonVal :=
  List.lookup k kvs.reverse

/-- Truthiness of a number from its JSON lexeme: zero iff every mantissa
digit is `0`; `NaN`/`Infinity`/`-Infinity` (no digits before any exponent
marker) are truthy. -/
def numTruthy (lex : String) : Bool :=
  let mant := lex.toList.takeWhile (fun c => !(c = 'e' || c = 'E'))
  !(mant.any (fun c => c.isDigit)) || mant.any (fun c => c.isDigit && !(c = '0'))

/-- Python truthiness of an optional decoded JSON value (`none` models the
Python value `None` returned by `dict.get` for a missing key). -/
def pyTruthy : Option JsonVal → Bool
  | none => false
  | some JsonVal.null => false
  | some (JsonVal.bool b) => b
  | some (JsonVal.str s) => if s = "" then false else true
  | some (JsonVal.num lex) => numTruthy lex
  | some (JsonVal.arr l) => !l.isEmpty
  | some (JsonVal.obj l) => !l.isEmpty

/-- Modelled from the spec: the transport-layer failure object (class
`ApiException` of `cdp/client/exceptions.py`, which is not among the given
sources) carries `status: integer` and `body: string | absent`; these are the
only attributes `cdp/errors.py` reads from it. -/
structure ApiException where
  status : Int
  body : Option String
deriving DecidableEq

/-- The typed-error kinds of `cdp/errors.py`: the base class `APIError`
plus its 23 subclasses, one per registry code. -/
inductive ErrorVariant where
  | base
  | unimplemented
  | unauthorized
  | internal
  | notFound
  | invalidWalletID
  | invalidAddressID
  | invalidWallet
  | invalidAddress
  | invalidAmount
  | invalidTransferID
  | invalidPage
  | invalidLimit
  | alreadyExists
  | malformedRequest
  | unsupportedAsset
  | invalidAssetID
  | invalidDestination
  | invalidNetworkID
  | resourceExhausted
  | faucetLimitReached
  | invalidSignedPayload
  | invalidTransferStatus
  | networkFeatureUnsupported
deriving DecidableEq

/-- A constructed `APIError` (or subclass) instance: the class tag plus the
four attributes set by `APIError.__init__`. -/
structure APIError where
  variant : ErrorVariant
  http_code : Int
  api_code : Option JsonVal
  api_message : Option JsonVal
  handled : Bool

/-- `APIError.__init__`: stores `err.status`, `code`, `message`, and sets
`handled = bool(code and message and not unhandled)` (Python truthiness). -/
def APIError.mkFrom (variant : ErrorVariant) (err : ApiException)
    (code message : Option JsonVal) (unhandled : Bool) : APIError :=
  { variant := variant
    http_code := err.status
    api_code := code
    api_message := message
    handled := pyTruthy code && pyTruthy message && !unhandled }

/-- `ERROR_CODE_TO_ERROR_CLASS` of `cdp/errors.py`, in source order. -/
def ERROR_CODE_TO_ERROR_CLASS : List (String × ErrorVariant) :=
  [(("unimplemented" : String), ErrorVariant.unimplemented),
   (("unauthorized" : String), ErrorVariant.unauthorized),
   (("internal" : String), ErrorVariant.internal),
   (("not_found" : String), ErrorVariant.notFound),
   (("invalid_wallet_id" : String), ErrorVariant.invalidWalletID),
   (("invalid_address_id" : String), ErrorVariant.invalidAddressID),
   (("invalid_wallet" : String), ErrorVariant.invalidWallet),
   (("invalid_address" : String), ErrorVariant.invalidAddress),
   (("invalid_amount" : String), ErrorVariant.invalidAmount),
   (("invalid_transfer_id" : String), ErrorVariant.invalidTransferID),
   (("invalid_page_token" : String), ErrorVariant.invalidPage),
   (("invalid_page_limit" : String), ErrorVariant.invalidLimit),
   (("already_exists" : String), ErrorVariant.alreadyExists),
   (("malformed_request" : String), ErrorVariant.malformedRequest),
   (("unsupported_asset" : String), ErrorVariant.unsupportedAsset),
   (("invalid_asset_id" : String), ErrorVariant.invalidAssetID),
   (("invalid_destination" : String), ErrorVariant.invalidDestination),
   (("invalid_network_id" : String), ErrorVariant.invalidNetworkID),
   (("resource_exhausted" : String), ErrorVariant.resourceExhausted),
   (("faucet_limit_reached" : String), ErrorVariant.faucetLimitReached),
   (("invalid_signed_payload" : String), ErrorVariant.invalidSignedPayload),
   (("invalid_transfer_status" : String), ErrorVariant.invalidTransferStatus),
   (("network_feature_unsupported" : String), ErrorVariant.networkFeatureUnsupported)]

/-- Registry lookup by exact string key (Python `dict` indexing). -/
def registryGet (c : String) : Option ErrorVariant :=
  List.lookup c ERROR_CODE_TO_ERROR_CLASS

/-- The membership test `code in ERROR_CODE_TO_ERROR_CLASS` applied to the
Python value returned by `body.get("code")`: only a string key can be a
member of the registry dict. -/
def codeLookup : Option JsonVal → Option ErrorVariant
  | some (JsonVal.str c) => registryGet c
  | _ => none

/-- Python exceptions that `APIError.from_error` can raise: the explicit
`ValueError` of the isinstance guard, and the `AttributeError` escaping from
`body.get(...)` when `json.loads` returns a non-dict value. -/
inductive PyErr where
  | valueError (msg : String)
  | attributeError (msg : String)

/-- Python type name of a decoded JSON value, used in the `AttributeError`
message. -/
def pyTypeName : JsonVal → String
  | JsonVal.null => "NoneType"
  | JsonVal.bool _ => "bool"
  | JsonVal.str _ => "str"
  | JsonVal.num lex =>
    if lex.toList.any (fun c => c = '.' || c = 'e' || c = 'E' || c = 'I' || c = 'N')
    then ("float") else ("int")
  | JsonVal.arr _ => "list"
  | JsonVal.obj _ => "dict"

/-- The argument of the classmethod `APIError.from_error`: either an
`ApiException` instance or any other Python value (whose content is
irrelevant, since the isinstance guard rejects it before any use). -/
inductive FromErrorArg where
  | apiExc (e : ApiException)
  | notApiExc

/-- `APIError.from_error` of `cdp/errors.py`.  `Except.error` models a raised
Python exception, `Except.ok` a returned typed error. -/
def APIError.from_error : FromErrorArg → Except PyErr APIError
  | FromErrorArg.notApiExc =>
    Except.error (PyErr.valueError ("argument must be an ApiException"))
  | FromErrorArg.apiExc err =>
    match err.body with
    | none => Except.ok (APIError.mkFrom ErrorVariant.base err none none false)
    | some s =>
      if s = "" then Except.ok (APIError.mkFrom ErrorVariant.base err none none false)
      else
        match json_loads s with
        | none => Except.ok (APIError.mkFrom ErrorVariant.base err none none false)
        | some (JsonVal.obj kvs) =>
          let message := jget kvs ("message")
          let code := jget kvs ("code")
          match codeLookup code with
          | some v => Except.ok (APIError.mkFrom v err code message false)
          | none => Except.ok (APIError.mkFrom ErrorVariant.base err code message true)
        | some j =>
          Except.error (PyErr.attributeError
            ("\x27" ++ pyTypeName j ++ "\x27 object has no attribute \x27get\x27"))

mutual

/-- Python `repr` of a decoded JSON value.  Simplification: `repr` of a
string is modelled as the string between plain single quotes, without
Python's escaping of quotes and control characters inside it; no theorem
below depends on the rendering of a string that needs such escapes. -/
def pyReprOf : JsonVal → String
  | JsonVal.null => "None"
  | JsonVal.bool true => "True"
  | JsonVal.bool false => "False"
  | JsonVal.num lex => lex
  | JsonVal.str s => "\x27" ++ s ++ "\x27"
  | JsonVal.arr l => "[" ++ pyReprList l ++ "]"
  | JsonVal.obj l => "\x7b" ++ pyReprMembers l ++ "\x7d"

/-- Comma-separated `repr`s of list elements. -/
def pyReprList : List JsonVal → String
  | [] => ""
  | [x] => pyReprOf x
  | x :: rest => pyReprOf x ++ ", " ++ pyReprList rest

/-- Comma-separated `repr`s of dict members. -/
def pyReprMembers : List (String × JsonVal) → String
  | [] => ""
  | [(k, v)] => "\x27" ++ k ++ "\x27: " ++ pyReprOf v
  | (k, v) :: rest => "\x27" ++ k ++ "\x27: " ++ pyReprOf v ++ ", " ++ pyReprMembers rest

end

/-- Python `str` of a decoded JSON value: the identity on strings, `repr`
otherwise. -/
def pyStrOf : JsonVal → String
  | JsonVal.str s => s
  | v => pyReprOf v

/-- Python `str` applied to an f-string interpoland that may be `None`. -/
def pyStrOfOpt : Option JsonVal → String
  | none => "None"
  | some v => pyStrOf v

/-- `APIError.__str__` of `cdp/errors.py`. -/
def APIError.str (e : APIError) : String :=
  if e.handled then
    ("APIError(http_code=" ++ toString e.http_code ++ ", api_code=" ++
      pyStrOfOpt e.api_code ++ ", api_message=" ++ pyStrOfOpt e.api_message ++ ")")
  else
    ("APIError(http_code=" ++ toString e.http_code ++ ", api_code=" ++
      pyStrOfOpt e.api_code ++ ", api_message=" ++ pyStrOfOpt e.api_message ++
      ", unhandled=True)")

/-- Whether `n` occurs as a contiguous substring of `hay`. -/
def occursIn (n : List Char) : List Char → Bool
  | [] => n.isEmpty
  | c :: rest => List.isPrefixOf n (c :: rest) || occursIn n rest

/-- Whether `needle` occurs as a contiguous substring of `hay`. -/
def strOccurs (needle hay : String) : Bool :=
  occursIn needle.toList hay.toList

/-- The `WebhookEventFilter` pydantic model of
`cdp/client/models/webhook_event_filter.py`: three optional strict-string
fields, all defaulting to `None`, plus pydantic's record of which fields
were explicitly passed at construction (`model_fields_set`). -/
structure WebhookEventFilter where
  contract_address : Option String := none
  from_address : Option String := none
  to_address : Option String := none
  model_fields_set : List String := []
deriving DecidableEq

/-- pydantic `BaseModel.__eq__`: field values are compared;
`model_fields_set` is not part of the comparison. -/
def pydanticEq (a b : WebhookEventFilter) : Bool :=
  a.contract_address == b.contract_address &&
  a.from_address == b.from_address &&
  a.to_address == b.to_address

/-- `WebhookEventFilter.to_dict`: `model_dump(by_alias=True, exclude_none=True)`
with an empty exclusion set; each alias equals the field name.  Fields whose
value is `None` are omitted from the output, in field-declaration order. -/
def WebhookEventFilter.to_dict (x : WebhookEventFilter) : List (String × String) :=
  (match x.contract_address with
   | some v => [(("contract_address" : String), v)]
   | none => []) ++
  (match x.from_address with
   | some v => [(("from_address" : String), v)]
   | none => []) ++
  (match x.to_address with
   | some v => [(("to_address" : String), v)]
   | none => [])

/-- Python `dict.get` on a string-valued dict (later duplicate keys win,
as in a Python dict built from these pairs). -/
def pyGet (d : List (String × String)) (k : String) : Option String :=
  List.lookup k d.reverse

/-- `WebhookEventFilter.from_dict`: `None` input propagates to `None`;
otherwise `model_validate` of the three `obj.get(...)` results, which marks
all three fields as explicitly set.  (The `not isinstance(obj, dict)` branch
cannot arise for a dict-typed input and is not modelled.) -/
def WebhookEventFilter.from_dict :
    Option (List (String × String)) → Option WebhookEventFilter
  | none => none
  | some obj => some
      { contract_address := pyGet obj ("contract_address")
        from_address := pyGet obj ("from_address")
        to_address := pyGet obj ("to_address")
        model_fields_set :=
          [("contract_address" : String), "from_address", "to_address"] }

/-- The empty string is not valid JSON. -/
theorem json_loads_empty : json_loads ("") = none := rfl

/-- Registry keys are nonempty strings. -/
theorem registry_key_nonempty (C : String) (v : ErrorVariant)
    (h : registryGet C = some v) : ¬(C = "") := by
  intro hC
  subst hC
  exact Option.noConfusion h

/-- A string whose parse succeeds is nonempty. -/
theorem json_loads_ne_empty (b : String) (j : JsonVal)
    (h : json_loads b = some j) : ¬(b = "") := by
  intro hb
  subst hb
  exact Option.noConfusion h

/-- An association-list lookup succeeds exactly on the listed keys. -/
theorem lookup_isSome_iff_mem (l : List (String × ErrorVariant)) (c : String) :
    (List.lookup c l).isSome = true ↔ c ∈ l.map Prod.fst := by
  induction l with
  | nil => simp [List.lookup]
  | cons p t ih =>
    obtain ⟨k, v⟩ := p
    by_cases h : c = k
    · subst h
      simp [List.lookup]
    · have hf : (c == k) = false := beq_eq_false_iff_ne.mpr h
      simp [List.lookup, hf, h, ih]

/-- A substring of the right part occurs in an append. -/
theorem occursIn_append_of_right (n b : List Char) (h : occursIn n b = true) :
    ∀ a : List Char, occursIn n (a ++ b) = true := by
  intro a
  induction a with
  | nil => simpa using h
  | cons c t ih =>
    simp only [List.cons_append, occursIn, Bool.or_eq_true]
    exact Or.inr ih

/-- C5: for every code string not present in the registry, classifying a body
whose JSON object carries that code yields the base kind (not a registry
variant) with `handled = false` and `api_code` set to that code (the server
message, if any, is attached unchanged). -/
theorem errors_C5_unknown_code_unhandled :
    ∀ (S : Int) (b : String) (kvs : List (String × JsonVal)) (c : String),
      json_loads b = some (JsonVal.obj kvs) →
      jget kvs ("code") = some (JsonVal.str c) →
      registryGet c = none →
      APIError.from_error (FromErrorArg.apiExc ⟨S, some b⟩) =
        Except.ok ⟨ErrorVariant.base, S, some (JsonVal.str c),
          jget kvs ("message"), false⟩ := by
  intro S b kvs c hl hc hr
  have hb : ¬(b = "") := json_loads_ne_empty b _ hl
  simp [APIError.from_error, hb, hl, hc, hr, codeLookup, APIError.mkFrom]

/-- C5 witness: the spec's example code `totally_unknown_code` with a message,
at status 400. -/
theorem errors_C5_unknown_code_unhandled_witness :
    APIError.from_error (FromErrorArg.apiExc
        ⟨400, some ("\x7b\"code\": \"totally_unknown_code\", \"message\": \"m\"\x7d")⟩) =
      Except.ok ⟨ErrorVariant.base, 400, some (JsonVal.str ("totally_unknown_code")),
        some (JsonVal.str ("m")), false⟩ :=
  errors_C5_unknown_code_unhandled 400
    ("\x7b\"code\": \"totally_unknown_code\", \"message\": \"m\"\x7d")
    [(("code" : String), JsonVal.str ("totally_unknown_code")),
     (("message" : String), JsonVal.str ("m"))]
    ("totally_unknown_code") rfl rfl rfl

/-- C6: for an absent body or a body that is not valid JSON, classification
returns the base kind with no api code, no api message, `handled = false`,
and the input status as `http_code`. -/
theorem errors_C6_degraded_base :
    ∀ (S : Int) (b? : Option String),
      (b? = none ∨ ∃ b, b? = some b ∧ json_loads b = none) →
      APIError.from_error (FromErrorArg.apiExc ⟨S, b?⟩) =
        Except.ok ⟨ErrorVariant.base, S, none, none, false⟩ := by
  intro S b? h
  rcases h with h | ⟨b, rfl, hl⟩
  · subst h; rfl
  · by_cases hb : b = ""
    · subst hb; rfl
    · simp [APIError.from_error, hb, hl, APIError.mkFrom, pyTruthy]

/-- C6 witness: the spec's concrete scenario, status 500 with body
`not json`. -/
theorem errors_C6_degraded_base_witness :
    APIError.from_error (FromErrorArg.apiExc ⟨500, some ("not json")⟩) =
      Except.ok ⟨ErrorVariant.base, 500, none, none, false⟩ :=
  errors_C6_degraded_base 500 (some ("not json"))
    (Or.inr ⟨("not json"), rfl, rfl⟩)

/-- C8: the registry keys are exactly the 23 listed codes in source order,
each key maps to a distinct variant, and a lookup succeeds exactly on a
case-sensitively equal key. -/
theorem errors_C8_registry_contract :
    ERROR_CODE_TO_ERROR_CLASS.map Prod.fst =
      [("unimplemented" : String), "unauthorized", "internal", "not_found",
       "invalid_wallet_id", "invalid_address_id", "invalid_wallet",
       "invalid_address", "invalid_amount", "invalid_transfer_id",
       "invalid_page_token", "invalid_page_limit", "already_exists",
       "malformed_request", "unsupported_asset", "invalid_asset_id",
       "invalid_destination", "invalid_network_id", "resource_exhausted",
       "faucet_limit_reached", "invalid_signed_payload",
       "invalid_transfer_status", "network_feature_unsupported"] ∧
    (ERROR_CODE_TO_ERROR_CLASS.map Prod.snd).Nodup ∧
    ∀ c : String,
      (registryGet c).isSome = true ↔ c ∈ ERROR_CODE_TO_ERROR_CLASS.map Prod.fst :=
  ⟨rfl, by decide, fun c => lookup_isSome_iff_mem ERROR_CODE_TO_ERROR_CLASS c⟩

/-- C10: `from_error` raises `ValueError("argument must be an ApiException")`
on every non-`ApiException` argument, and never raises a `ValueError` on an
`ApiException` argument. -/
theorem errors_C10_isinstance_guard :
    APIError.from_error FromErrorArg.notApiExc =
      Except.error (PyErr.valueError ("argument must be an ApiException")) ∧
    ∀ (e : ApiException) (msg : String),
      ¬(APIError.from_error (FromErrorArg.apiExc e) =
        Except.error (PyErr.valueError msg)) := by
  refine ⟨rfl, ?_⟩
  intro e msg h
  simp only [APIError.from_error] at h
  split at h
  all_goals try split at h
  all_goals try split at h
  all_goals try split at h
  all_goals simp_all

/-- C9: for every `WebhookEventFilter` instance, `from_dict (to_dict x)`
yields an instance pydantic-equal to `x`, and the serialized keys are exactly
the fields whose value is present — in particular every field left unset (and
hence `None`) is absent from the output rather than serialized as null. -/
theorem models_C9_roundtrip :
    ∀ x : WebhookEventFilter,
      (∃ y, WebhookEventFilter.from_dict (some (WebhookEventFilter.to_dict x)) =
          some y ∧ pydanticEq y x = true) ∧
      (WebhookEventFilter.to_dict x).map Prod.fst =
        ((if x.contract_address.isSome then [("contract_address" : String)] else []) ++
         (if x.from_address.isSome then [("from_address" : String)] else []) ++
         (if x.to_address.isSome then [("to_address" : String)] else [])) := by
  intro x
  obtain ⟨ca, fa, ta, fs⟩ := x
  cases ca <;> cases fa <;> cases ta <;>
    simp [WebhookEventFilter.to_dict, WebhookEventFilter.from_dict, pyGet,
      pydanticEq, List.lookup]

/-- C1 counterexample: the claim fails at the empty message.  For registry
code `not_found`, message `""` and status 404 the classifier returns the
`NotFoundError` variant with `handled = false`, not `handled = true` as the
claim states for every message string. -/
theorem errors_C1_counterexample :
    APIError.from_error (FromErrorArg.apiExc
        ⟨404, some ("\x7b\"code\": \"not_found\", \"message\": \"\"\x7d")⟩) =
      Except.ok ⟨ErrorVariant.notFound, 404, some (JsonVal.str ("not_found")),
        some (JsonVal.str ("")), false⟩ := rfl

/-- C1 amended: for every registry code `C`, every NONEMPTY message string
`m` and every status `S`, classifying a body that is the JSON object
`\x7b"code": C, "message": m\x7d` yields exactly the variant the registry maps
`C` to, with `handled = true`, `api_code = C`, `api_message = m`, and
`http_code = S`. -/
theorem errors_C1_amended_known_code_classified :
    ∀ (C m : String) (S : Int) (b : String) (v : ErrorVariant),
      registryGet C = some v →
      ¬(m = "") →
      json_loads b = some (JsonVal.obj
        [(("code" : String), JsonVal.str C), (("message" : String), JsonVal.str m)]) →
      APIError.from_error (FromErrorArg.apiExc ⟨S, some b⟩) =
        Except.ok ⟨v, S, some (JsonVal.str C), some (JsonVal.str m), true⟩ := by
  intro C m S b v hreg hm hl
  have hb : ¬(b = "") := json_loads_ne_empty b _ hl
  have hC : ¬(C = "") := registry_key_nonempty C v hreg
  have hcode : jget [(("code" : String), JsonVal.str C),
      (("message" : String), JsonVal.str m)] ("code") = some (JsonVal.str C) := rfl
  have hmsg : jget [(("code" : String), JsonVal.str C),
      (("message" : String), JsonVal.str m)] ("message") = some (JsonVal.str m) := rfl
  simp [APIError.from_error, hb, hl, hcode, hmsg, codeLookup, hreg,
    APIError.mkFrom, pyTruthy, hC, hm]

/-- C1 witness: the spec's concrete scenario — status 404, body
`\x7b"code":"not_found","message":"wallet not found"\x7d` classifies to the
`NotFoundError` variant, handled, with code and message attached. -/
theorem errors_C1_amended_known_code_classified_witness :
    APIError.from_error (FromErrorArg.apiExc
        ⟨404, some ("\x7b\"code\": \"not_found\", \"message\": \"wallet not found\"\x7d")⟩) =
      Except.ok ⟨ErrorVariant.notFound, 404, some (JsonVal.str ("not_found")),
        some (JsonVal.str ("wallet not found")), true⟩ :=
  errors_C1_amended_known_code_classified ("not_found") ("wallet not found") 404
    ("\x7b\"code\": \"not_found\", \"message\": \"wallet not found\"\x7d")
    ErrorVariant.notFound rfl (by simp) rfl

/-- C3 counterexample: the claim fails when the message is absent.  For a
body whose object carries registry code `not_found` and no message, the
classifier does construct the `NotFoundError` variant but marks
`handled = false`, not `recognized = true` as the claim states. -/
theorem errors_C3_counterexample :
    APIError.from_error (FromErrorArg.apiExc
        ⟨402, some ("\x7b\"code\": \"not_found\"\x7d")⟩) =
      Except.ok ⟨ErrorVariant.notFound, 402, some (JsonVal.str ("not_found")),
        none, false⟩ := rfl

/-- C3 amended: when the body parses to a JSON object whose `code` is a
registry key, classification constructs the variant the registry maps it to,
attaching the status, the code, and the (possibly absent) message — but
`recognized` is true exactly when the message is present and truthy, not
unconditionally. -/
theorem errors_C3_amended_registry_hit :
    ∀ (S : Int) (b : String) (kvs : List (String × JsonVal)) (C : String)
      (v : ErrorVariant),
      json_loads b = some (JsonVal.obj kvs) →
      jget kvs ("code") = some (JsonVal.str C) →
      registryGet C = some v →
      APIError.from_error (FromErrorArg.apiExc ⟨S, some b⟩) =
        Except.ok ⟨v, S, some (JsonVal.str C), jget kvs ("message"),
          pyTruthy (jget kvs ("message"))⟩ := by
  intro S b kvs C v hl hc hreg
  have hb : ¬(b = "") := json_loads_ne_empty b _ hl
  have hC : ¬(C = "") := registry_key_nonempty C v hreg
  simp [APIError.from_error, hb, hl, hc, codeLookup, hreg,
    APIError.mkFrom, pyTruthy, hC]

/-- C3 witness: status 401 with code `unauthorized` and message `nope`. -/
theorem errors_C3_amended_registry_hit_witness :
    APIError.from_error (FromErrorArg.apiExc
        ⟨401, some ("\x7b\"code\": \"unauthorized\", \"message\": \"nope\"\x7d")⟩) =
      Except.ok ⟨ErrorVariant.unauthorized, 401, some (JsonVal.str ("unauthorized")),
        some (JsonVal.str ("nope")), true⟩ :=
  errors_C3_amended_registry_hit 401
    ("\x7b\"code\": \"unauthorized\", \"message\": \"nope\"\x7d")
    [(("code" : String), JsonVal.str ("unauthorized")),
     (("message" : String), JsonVal.str ("nope"))]
    ("unauthorized") ErrorVariant.unauthorized rfl rfl rfl

/-- Evaluation of `from_error` on a nonempty body that parses to a JSON
object: the result is determined by the registry lookup of the `code`
member. -/
theorem from_error_obj_eval (S : Int) (s : String)
    (kvs : List (String × JsonVal)) (hs : ¬(s = ""))
    (hjl : json_loads s = some (JsonVal.obj kvs)) :
    APIError.from_error (FromErrorArg.apiExc ⟨S, some s⟩) =
      match codeLookup (jget kvs ("code")) with
      | some v => Except.ok (APIError.mkFrom v ⟨S, some s⟩
          (jget kvs ("code")) (jget kvs ("message")) false)
      | none => Except.ok (APIError.mkFrom ErrorVariant.base ⟨S, some s⟩
          (jget kvs ("code")) (jget kvs ("message")) true) := by
  simp [APIError.from_error, hs, hjl]

/-- Truthiness of a nonempty decoded string. -/
theorem pyTruthy_str (s : String) (h : ¬(s = "")) :
    pyTruthy (some (JsonVal.str s)) = true := by
  simp [pyTruthy, h]

/-- Inversion of the registry membership test on the decoded `code` value. -/
theorem codeLookup_eq_some (o : Option JsonVal) (v : ErrorVariant)
    (h : codeLookup o = some v) :
    ∃ C, o = some (JsonVal.str C) ∧ registryGet C = some v := by
  match o with
  | none => exact Option.noConfusion h
  | some JsonVal.null => exact Option.noConfusion h
  | some (JsonVal.bool b) => exact Option.noConfusion h
  | some (JsonVal.num lex) => exact Option.noConfusion h
  | some (JsonVal.str C) => exact ⟨C, rfl, h⟩
  | some (JsonVal.arr l) => exact Option.noConfusion h
  | some (JsonVal.obj l) => exact Option.noConfusion h

/-- C2 counterexample: the claim's "if and only if both a server code and a
server message were present and the code matched the registry" fails when the
message is present but empty: with code `internal` (a registry key) and
message `""` both present, `handled` is still `false`. -/
theorem errors_C2_counterexample :
    APIError.from_error (FromErrorArg.apiExc
        ⟨500, some ("\x7b\"code\": \"internal\", \"message\": \"\"\x7d")⟩) =
      Except.ok ⟨ErrorVariant.internal, 500, some (JsonVal.str ("internal")),
        some (JsonVal.str ("")), false⟩ := rfl

/-- C2 amended: a classification result has `handled = true` exactly when the
body was present and parsed to a JSON object whose `code` member is a string
found in the registry and whose `message` member is present and truthy (a
present but empty, null, zero or false message leaves the error
unhandled). -/
theorem errors_C2_amended_handled_iff :
    ∀ (err : ApiException) (e : APIError),
      APIError.from_error (FromErrorArg.apiExc err) = Except.ok e →
      (e.handled = true ↔
        ∃ (b : String) (kvs : List (String × JsonVal)) (C : String)
          (v : ErrorVariant),
          err.body = some b ∧
          json_loads b = some (JsonVal.obj kvs) ∧
          jget kvs ("code") = some (JsonVal.str C) ∧
          registryGet C = some v ∧
          pyTruthy (jget kvs ("message")) = true) := by
  intro err e h
  obtain ⟨S, b?⟩ := err
  cases b? with
  | none =>
    simp only [APIError.from_error] at h
    have he := Except.ok.inj h
    subst he
    simp [APIError.mkFrom, pyTruthy]
  | some s =>
    by_cases hs : s = ""
    · subst hs
      simp only [APIError.from_error, reduceIte] at h
      have he := Except.ok.inj h
      subst he
      simp [APIError.mkFrom, pyTruthy, json_loads_empty]
    · cases hjl : json_loads s with
      | none =>
        simp only [APIError.from_error, if_neg hs, hjl] at h
        have he := Except.ok.inj h
        subst he
        simp [APIError.mkFrom, pyTruthy, hjl]
      | some j =>
        cases j with
        | obj kvs =>
          rw [from_error_obj_eval S s kvs hs hjl] at h
          cases hcl : codeLookup (jget kvs ("code")) with
          | some v =>
            rw [hcl] at h
            have he := Except.ok.inj h
            subst he
            obtain ⟨C, hC, hreg⟩ := codeLookup_eq_some _ _ hcl
            have hCne : ¬(C = "") := registry_key_nonempty C v hreg
            constructor
            · intro hh
              refine ⟨s, kvs, C, v, rfl, hjl, hC, hreg, ?_⟩
              simp [APIError.mkFrom, hC, pyTruthy_str C hCne] at hh
              exact hh
            · rintro ⟨b, kvs2, C2, v2, hbeq, hl2, hc2, hreg2, hmsg2⟩
              obtain rfl : b = s := (Option.some.inj hbeq).symm
              rw [hjl] at hl2
              obtain rfl : kvs = kvs2 := JsonVal.obj.inj (Option.some.inj hl2)
              simp [APIError.mkFrom, hC, pyTruthy_str C hCne, hmsg2]
          | none =>
            rw [hcl] at h
            have he := Except.ok.inj h
            subst he
            constructor
            · intro hh
              simp [APIError.mkFrom] at hh
            · rintro ⟨b, kvs2, C2, v2, hbeq, hl2, hc2, hreg2, hmsg2⟩
              exfalso
              obtain rfl : b = s := (Option.some.inj hbeq).symm
              rw [hjl] at hl2
              obtain rfl : kvs = kvs2 := JsonVal.obj.inj (Option.some.inj hl2)
              rw [hc2] at hcl
              have hcl2 : registryGet C2 = none := hcl
              rw [hreg2] at hcl2
              exact Option.noConfusion hcl2
        | null =>
          simp only [APIError.from_error, if_neg hs, hjl] at h
          exact Except.noConfusion h
        | bool b =>
          simp only [APIError.from_error, if_neg hs, hjl] at h
          exact Except.noConfusion h
        | num lex =>
          simp only [APIError.from_error, if_neg hs, hjl] at h
          exact Except.noConfusion h
        | str s2 =>
          simp only [APIError.from_error, if_neg hs, hjl] at h
          exact Except.noConfusion h
        | arr l =>
          simp only [APIError.from_error, if_neg hs, hjl] at h
          exact Except.noConfusion h

/-- C2 witness: at status 404 with body
`\x7b"code": "not_found", "message": "gone"\x7d` the handled flag is true and
the registry-and-truthy-message condition holds. -/
theorem errors_C2_amended_handled_iff_witness :
    ((⟨ErrorVariant.notFound, 404, some (JsonVal.str ("not_found")),
        some (JsonVal.str ("gone")), true⟩ : APIError).handled = true ↔
      ∃ (b : String) (kvs : List (String × JsonVal)) (C : String)
        (v : ErrorVariant),
        (some ("\x7b\"code\": \"not_found\", \"message\": \"gone\"\x7d") :
          Option String) = some b ∧
        json_loads b = some (JsonVal.obj kvs) ∧
        jget kvs ("code") = some (JsonVal.str C) ∧
        registryGet C = some v ∧
        pyTruthy (jget kvs ("message")) = true) :=
  errors_C2_amended_handled_iff
    ⟨404, some ("\x7b\"code\": \"not_found\", \"message\": \"gone\"\x7d")⟩
    ⟨ErrorVariant.notFound, 404, some (JsonVal.str ("not_found")),
      some (JsonVal.str ("gone")), true⟩ rfl

/-- C4: contrary to the never-throws contract, a body that is valid JSON but
not a JSON object escapes classification as an uncaught Python
`AttributeError` (only `json.JSONDecodeError` is caught before
`body.get(...)` is called): status 500 with body `[1, 2]` raises instead of
degrading to the base kind. -/
theorem errors_C4_nonobject_json_raises :
    APIError.from_error (FromErrorArg.apiExc ⟨500, some ("[1, 2]")⟩) =
      Except.error (PyErr.attributeError
        ("\x27list\x27 object has no attribute \x27get\x27")) := rfl

/-- A substring of the right part occurs in a string append. -/
theorem strOccurs_right (n a b : String) (h : strOccurs n b = true) :
    strOccurs n (a ++ b) = true := by
  show occursIn n.toList ((a ++ b).toList) = true
  have hd : (a ++ b).toList = a.toList ++ b.toList := String.data_append a b
  rw [hd]
  exact occursIn_append_of_right n.toList b.toList h a.toList

/-- C7 counterexample: the rendering of a handled error can contain the
unhandled marker, because the server message is interpolated verbatim: the
classifier accepts message `unhandled=True` for registry code `not_found`,
producing a handled error whose rendering contains `unhandled=True`. -/
theorem errors_C7_counterexample :
    APIError.from_error (FromErrorArg.apiExc
        ⟨404, some ("\x7b\"code\": \"not_found\", \"message\": \"unhandled=True\"\x7d")⟩) =
      Except.ok ⟨ErrorVariant.notFound, 404, some (JsonVal.str ("not_found")),
        some (JsonVal.str ("unhandled=True")), true⟩ ∧
    strOccurs ("unhandled=True")
      (APIError.str ⟨ErrorVariant.notFound, 404, some (JsonVal.str ("not_found")),
        some (JsonVal.str ("unhandled=True")), true⟩) = true :=
  ⟨rfl, rfl⟩

/-- C7 amended: the rendering of an unhandled error always contains the
marker `unhandled=True`; the rendering of a handled error appends no such
marker — it is exactly
`APIError(http_code=<n>, api_code=<code>, api_message=<message>)` — though
the interpolated code or message text may itself contain the marker. -/
theorem errors_C7_amended_render :
    ∀ e : APIError,
      (e.handled = false →
        strOccurs ("unhandled=True") (APIError.str e) = true) ∧
      (e.handled = true →
        APIError.str e =
          "APIError(http_code=" ++ toString e.http_code ++ ", api_code=" ++
            pyStrOfOpt e.api_code ++ ", api_message=" ++
            pyStrOfOpt e.api_message ++ ")") := by
  intro e
  constructor
  · intro h
    have hr : APIError.str e =
        ("APIError(http_code=" ++ toString e.http_code ++ ", api_code=" ++
          pyStrOfOpt e.api_code ++ ", api_message=" ++ pyStrOfOpt e.api_message) ++
          ", unhandled=True)" := by
      unfold APIError.str
      rw [if_neg (by simp [h])]
    rw [hr]
    exact strOccurs_right ("unhandled=True") _ (", unhandled=True)") rfl
  · intro h
    unfold APIError.str
    rw [if_pos h]

/-- C7 witness: the base unhandled error at status 500 renders with the
marker. -/
theorem errors_C7_amended_render_witness :
    strOccurs ("unhandled=True")
      (APIError.str ⟨ErrorVariant.base, 500, none, none, false⟩) = true :=
  (errors_C7_amended_render ⟨ErrorVariant.base, 500, none, none, false⟩).1 rfl

/-- C10 witness: a concrete `ApiException` input is never classified to a
`ValueError`. -/
theorem errors_C10_isinstance_guard_witness :
    ¬(APIError.from_error (FromErrorArg.apiExc ⟨500, none⟩) =
      Except.error (PyErr.valueError ("x"))) :=
  errors_C10_isinstance_guard.2 ⟨500, none⟩ ("x")
